import Mathlib

/-!
Verification of the Aidvantage scraper (src/aidvantage.py) against its
natural-language specification.

The Python module is shallowly embedded here:

* pure string/number conversions (`balance_to_float`, `apr_to_float`) become
  functions on `String` returning `Option ℚ`, with Python `float` modelled
  exactly as IEEE-754 binary64 rounding on rationals;
* the page classifier (`CurrentPage.get_current_page`) becomes a pure
  function of the page body text;
* the table parser (`_get_table_from_page`) and the loan-details parser
  (`get_account_details`) become functions of the header-cell texts and
  row-cell texts read from the page, returning `Except ScrapeErr _`;
* the Selenium driver becomes an abstract transition system `World S`: each
  primitive the code invokes (click an element, type into a field, probe for
  an element, read a table) is a field of the structure, `Option S` results
  model `NoSuchElementException`, and the navigation/login controller
  methods become functions `S → Except ScrapeErr S` parameterised by the
  world.  The unbounded `while` loop of `_do_filler_steps` carries explicit
  fuel; running out of fuel is a distinguished error standing for
  nontermination.

Rational arithmetic is performed through `mkRat` / `Rat.divInt` and the
`num`/`den` projections so that every definition evaluates by kernel
reduction.
-/

deriving instance DecidableEq for Except

namespace AidvantageModel

/-! ### String helpers -/

/-- Does the character list `pat` occur as a prefix of `s`? -/
def listStartsWith : List Char → List Char → Bool
  | [], _ => true
  | _ :: _, [] => false
  | p :: ps, c :: cs => p = c && listStartsWith ps cs

/-- Does the character list `pat` occur as a contiguous sublist of `s`?  This
models Python's substring test `pat in s`. -/
def listContainsSub (pat : List Char) : List Char → Bool
  | [] => pat.isEmpty
  | c :: cs => listStartsWith pat (c :: cs) || listContainsSub pat cs

/-- Python's `pat in hay` on strings. -/
def strContains (hay pat : String) : Bool :=
  listContainsSub pat.data hay.data

/-- Python's `s.replace(' ', '')`: remove every space. -/
def stripSpaces (s : String) : String :=
  ⟨s.data.filter (fun c => c ≠ ' ')⟩

/-- Python's `s.lstrip("$")`: remove every leading dollar sign. -/
def lstripDollar (s : String) : String :=
  ⟨s.data.dropWhile (fun c => c = '$')⟩

/-- Python's `s.rstrip("%")`: remove every trailing percent sign. -/
def rstripPercent (s : String) : String :=
  ⟨(s.data.reverse.dropWhile (fun c => c = '%')).reverse⟩

/-- Python's `s.replace(',', '')`: remove every comma. -/
def removeCommas (s : String) : String :=
  ⟨s.data.filter (fun c => c ≠ ',')⟩

/-! ### Exact rationals and IEEE-754 binary64 rounding

`Decimal` values are exact rationals.  Python `float` is IEEE-754 binary64;
`float` results are modelled as the exactly-rounded rational
(round-nearest, ties-to-even), which is exact for the normal, non-overflowing
range — the only range the scraper's percentage strings inhabit. -/

/-- Base-2 logarithm on `Nat`, `natLog2 n = ⌊log₂ n⌋` for `n ≥ 1` (and `0`
at `0`), implemented with structural fuel so it evaluates by kernel
reduction. -/
def natLog2 (n : Nat) : Nat := go n n
where
  go : Nat → Nat → Nat
    | 0, _ => 0
    | f + 1, m => if m ≤ 1 then 0 else go f (m / 2) + 1

/-- Multiply a rational by `2 ^ k` (`k` may be negative). -/
def mulPow2 (x : ℚ) (k : Int) : ℚ :=
  if 0 ≤ k then mkRat (x.num * (2 ^ k.toNat : Int)) x.den
  else mkRat x.num (x.den * 2 ^ (-k).toNat)

/-- Is `x < 2 ^ e` (`e` may be negative)?  Stated over the numerator and
denominator so that it evaluates by kernel reduction. -/
def ltPow2 (x : ℚ) (e : Int) : Bool :=
  if 0 ≤ e then x.num < (2 ^ e.toNat : Int) * x.den
  else x.num * (2 ^ (-e).toNat : Int) < (x.den : Int)

/-- Greatest `e` with `2 ^ e ≤ x`, for positive `x`. -/
def floorLog2 (x : ℚ) : Int :=
  let a : Int := natLog2 x.num.toNat
  let b : Int := natLog2 x.den
  if ltPow2 x (a - b) then a - b - 1 else a - b

/-- Round a nonnegative rational to the nearest integer, ties to even. -/
def rnEvenPos (x : ℚ) : Int :=
  let n := x.num
  let d : Int := x.den
  let f := n / d
  let r := n - f * d
  if 2 * r < d then f
  else if d < 2 * r then f + 1
  else if f % 2 = 0 then f else f + 1

/-- Round a positive rational to the nearest IEEE-754 binary64 value
(normal range). -/
def roundDoublePos (x : ℚ) : ℚ :=
  let k : Int := 52 - floorLog2 x
  mulPow2 (mkRat (rnEvenPos (mulPow2 x k)) 1) (-k)

/-- Round a rational to the nearest IEEE-754 binary64 value (normal range
and zero); this is the value Python `float` arithmetic produces. -/
def roundDouble (x : ℚ) : ℚ :=
  if x.num = 0 then 0
  else if x.num < 0 then -roundDoublePos (-x)
  else roundDoublePos x

/-- Exact rational division, via `Rat.divInt` so it kernel-reduces. -/
def ratDiv (a b : ℚ) : ℚ :=
  Rat.divInt (a.num * (b.den : Int)) (b.num * (a.den : Int))

/-- IEEE-754 binary64 division, as performed on Python floats: the exact
quotient, correctly rounded. -/
def floatDiv (a b : ℚ) : ℚ :=
  roundDouble (ratDiv a b)

/-! ### Decimal-literal parsing

Models Python's `Decimal(s)` and `float(s)` on plain decimal literals
(optional minus sign, digits, optional decimal point) — the only shapes the
scraped balance and rate strings take.  Any other input raises in Python and
is `none` here. -/

/-- Numeric value of a most-significant-first digit list. -/
def digitsVal (l : List Char) : Nat :=
  l.foldl (fun acc c => acc * 10 + (c.toNat - 48)) 0

/-- Parse an unsigned decimal literal `digits[.digits]` (at least one digit)
to an exact rational. -/
def parseDecCore (l : List Char) : Option ℚ :=
  let ip := l.takeWhile Char.isDigit
  let rest := l.dropWhile Char.isDigit
  match rest with
  | [] => if ip.isEmpty then none else some (mkRat (digitsVal ip) 1)
  | c :: fr =>
    if c = '.' ∧ fr.all Char.isDigit ∧ (ip ≠ [] ∨ fr ≠ []) then
      some (mkRat (digitsVal ip * 10 ^ fr.length + digitsVal fr) (10 ^ fr.length))
    else none

/-- Parse a signed decimal literal to an exact rational. -/
def parseDec (s : String) : Option ℚ :=
  match s.data with
  | '-' :: rest => (parseDecCore rest).map (fun q => -q)
  | l => parseDecCore l

/-- Python `float(s)` on a plain decimal literal: exact parse followed by
binary64 rounding. -/
def pyFloatOfString (s : String) : Option ℚ :=
  (parseDec s).map roundDouble

/-! ### Conversions and the loan record (src/aidvantage.py lines 52-68) -/

/-- Embeds `balance_to_float`:
`Decimal(balance.lstrip("$").replace(',', ''))`.  `Decimal` of a string is
an exact decimal parse; a malformed string raises (`none`). -/
def balance_to_float (s : String) : Option ℚ :=
  parseDec (removeCommas (lstripDollar s))

/-- Embeds `apr_to_float`: `Decimal(float(apr.rstrip("%")) / 100)`.  The
string is parsed by `float` (binary64 rounding), divided by `100` in
float arithmetic (rounded again), and `Decimal` of the resulting float is
exactly that float's rational value. -/
def apr_to_float (s : String) : Option ℚ :=
  (pyFloatOfString (rstripPercent s)).map (fun x => floatDiv x (mkRat 100 1))

/-- Embeds the `LoanDetails` attrs record: loan name, balance, rate and
due-date parsed from one row of the loan-details table. -/
structure LoanDetails where
  name : String
  balance : ℚ
  apr : ℚ
  due_date : String
deriving DecidableEq

/-! ### Page identities (src/aidvantage.py lines 90-125)

`Aidvantage.CurrentPage` is an `Enum` whose members each carry a
`PageDetail(matching_text, link_text)`.  Python iterates an `Enum` in
declaration order, which `pageOrder` reproduces. -/

/-- The members of `Aidvantage.CurrentPage`. -/
inductive CurrentPage
  | HOME_PAGE
  | GOV_DISCLAIMER
  | LOGIN_PAGE
  | ADDITIONAL_INFO
  | ACCOUNT_SUMMARY
  | ACCOUNT_HISTORY
  | LOAN_DETAILS
  | UNKNOWN
  | EXPIRED
deriving DecidableEq, Repr

/-- The `matching_text` of each page's `PageDetail`. -/
def matchingText : CurrentPage → String
  | .HOME_PAGE => "Welcome to Aidvantage!"
  | .GOV_DISCLAIMER => "You are accessing a U.S. Federal Government computer system"
  | .LOGIN_PAGE => "Forgot User ID Forgot Password"
  | .ADDITIONAL_INFO => "Please provide the information below so we can verify your account"
  | .ACCOUNT_SUMMARY => "This is an attempt to collect a debt and any information obtained will be used for that purpose"
  | .ACCOUNT_HISTORY => "The information contained on this page is current as of the day the information is requested"
  | .LOAN_DETAILS => "All Loan Details"
  | .UNKNOWN => "Not a known page type."
  | .EXPIRED => "Your session has expired."

/-- The `link_text` of each page's `PageDetail` (`none` is Python `None`;
the home page carries the empty string, which is not `None`). -/
def linkText : CurrentPage → Option String
  | .HOME_PAGE => some ""
  | .GOV_DISCLAIMER => none
  | .LOGIN_PAGE => some "Log in"
  | .ADDITIONAL_INFO => none
  | .ACCOUNT_SUMMARY => some "Account Summary"
  | .ACCOUNT_HISTORY => some "Account History"
  | .LOAN_DETAILS => some "Loan Details"
  | .UNKNOWN => none
  | .EXPIRED => none

/-- Declaration order of the enum, the order `for page_choice in
Aidvantage.CurrentPage` iterates. -/
def pageOrder : List CurrentPage :=
  [.HOME_PAGE, .GOV_DISCLAIMER, .LOGIN_PAGE, .ADDITIONAL_INFO,
   .ACCOUNT_SUMMARY, .ACCOUNT_HISTORY, .LOAN_DETAILS, .UNKNOWN, .EXPIRED]

/-- The loop body of `get_current_page`: return the first page of the list
whose `matching_text` occurs in the body text, else `UNKNOWN`.  (The
`assert isinstance(..., PageDetail)` in the loop always holds — every enum
value is a `PageDetail` — and is dropped by the typed embedding.) -/
def classifyFrom (t : String) : List CurrentPage → CurrentPage
  | [] => .UNKNOWN
  | p :: rest => if strContains t (matchingText p) then p else classifyFrom t rest

/-- Embeds `CurrentPage.get_current_page` as a function of the page body
text (`driver.find_element(By.TAG_NAME, 'body').text`). -/
def classify (t : String) : CurrentPage :=
  classifyFrom t pageOrder

/-- Does page `p` match body text `t`? -/
def matchesText (t : String) (p : CurrentPage) : Bool :=
  strContains t (matchingText p)

/-! ### Failure modes

Python exceptions raised (or propagated) by the embedded code.  The spec's
taxonomy maps `RowAlignmentError` to the `ValueError("Columns do not match
rows.")` and the `assert` of `_get_table_from_page`, `LoginFailed` to the
`RuntimeError` of `_require_login`, `ConfigurationError` to the
`ValueError` of `go_to_page`, and `UnknownSessionState` to the
`ValueError("Unknown login state.")` of `_is_logged_in`. -/
inductive ScrapeErr
  | noSuchElement
  | valueErrorNoLink
  | valueErrorState
  | valueErrorColumns
  | assertionFailed
  | runtimeError
  | keyError
  | typeError
  | timeoutErr
  | fuelExhausted
deriving DecidableEq, Repr

/-- Lift an `Option` (Selenium element lookup) into `Except`, `none` being
the raised exception. -/
def optE {α : Type} (o : Option α) (e : ScrapeErr) : Except ScrapeErr α :=
  match o with
  | some a => .ok a
  | none => .error e

/-! ### Python dict on string keys

`dict` preserves first-insertion order of keys; assigning to an existing
key overwrites its value in place. -/

/-- Python `d[k] = v` on an insertion-ordered dict. -/
def pyDictInsert {v : Type} : List (String × v) → String → v → List (String × v)
  | [], k, x => [(k, x)]
  | (k0, x0) :: rest, k, x =>
    if k0 = k then (k0, x) :: rest else (k0, x0) :: pyDictInsert rest k x

/-- Python `d.get(k)` / `d[k]` lookup. -/
def pyLookup {v : Type} : List (String × v) → String → Option v
  | [], _ => none
  | (k0, x) :: rest, k => if k0 = k then some x else pyLookup rest k

/-- Python `dict(zip(keys, values))`: `zip` truncates to the shorter list,
and duplicate keys collapse with the later value winning. -/
def pyDictZip (keys vals : List String) : List (String × String) :=
  (List.zip keys vals).foldl (fun d p => pyDictInsert d p.1 p.2) []

/-! ### The table extractor (src/aidvantage.py lines 324-356)

`_get_table_from_page` is embedded as a function of the header-cell texts
and the per-row cell texts it reads from the page; the surrounding element
lookups are the driver's job (`World.tableById` below).  The resulting
`DataFrame(data)` is represented by its column dictionary: column names in
header order mapped to the ordered column values. -/

/-- One step of the row-alignment `while` loop, run with structural fuel
`fuel ≥ row.length` (each iteration removes exactly one cell, so the fuel
never runs out before the loop condition fails). -/
def alignRowAux (hlen : Nat) : Nat → List String → Except ScrapeErr (List String)
  | 0, row => .ok row
  | fuel + 1, row =>
    if hlen < row.length then
      if row.head? = some "" then alignRowAux hlen fuel row.tail
      else if row.getLast? = some "" then alignRowAux hlen fuel row.dropLast
      else .error .valueErrorColumns
    else .ok row

/-- The row-alignment loop of `_get_table_from_page`: while the row has more
cells than the header, drop a leading empty cell, else a trailing empty
cell, else raise `ValueError("Columns do not match rows.")`. -/
def alignRow (hlen : Nat) (row : List String) : Except ScrapeErr (List String) :=
  alignRowAux hlen row.length row

/-- Spec-side definition for claim C7, front phase, following the spec's
words: drop a leading empty-string cell while the row has more cells than
the header. -/
def specTrimFront (hlen : Nat) : List String → List String
  | [] => []
  | c :: rest =>
    if c = "" ∧ hlen < (c :: rest).length then specTrimFront hlen rest else c :: rest

/-- Spec-side definition for claim C7, back phase: drop a trailing
empty-string cell while the row has more cells than the header, expressed
as front-trimming of the reversed row. -/
def specTrimBack (hlen : Nat) (row : List String) : List String :=
  (specTrimFront hlen row.reverse).reverse

/-- Spec-side alignment for claim C7, following the spec's words:
"repeatedly drop a leading or trailing empty-string cell until counts
match, preferring to drop from the front first, then the back; if neither
end is an empty string, fails with RowAlignmentError".  The front-first
preference separates the interleaved dropping into a front phase followed
by a back phase (dropping a trailing cell never changes the head); a row
still longer than the header afterwards fails.  The refinement theorem for
claim C7 proves the source's loop `alignRow` equal to this definition. -/
def specAlign (hlen : Nat) (row : List String) : Except ScrapeErr (List String) :=
  let r2 := specTrimBack hlen (specTrimFront hlen row)
  if hlen < r2.length then .error .valueErrorColumns else .ok r2

/-- Python `data[k].append(v)`: `none` models the `KeyError` raised when
`k` is not a column (unreachable from `tableFromPage`, whose keys always
come from the header list). -/
def appendCell : List (String × List String) → String → String →
    Option (List (String × List String))
  | [], _, _ => none
  | (k0, vs) :: rest, k, v =>
    if k0 = k then some ((k0, vs ++ [v]) :: rest)
    else (appendCell rest k v).map (fun r => (k0, vs) :: r)

/-- The `for key, value in data_dict.items(): data[key].append(value)` loop. -/
def appendRow (d : List (String × List String)) (dd : List (String × String)) :
    Except ScrapeErr (List (String × List String)) :=
  dd.foldlM (fun d p =>
    match appendCell d p.1 p.2 with
    | some d1 => Except.ok d1
    | none => Except.error .keyError) d

/-- `data = {header: [] for header in header_list}`. -/
def pyDictInit (headers : List String) : List (String × List String) :=
  headers.foldl (fun d h => pyDictInsert d h []) []

/-- The body-row loop of `_get_table_from_page`: align the row, skip a
`['']` spacer row, `assert` the aligned length matches the header count,
then append each cell to its column. -/
def processRow (hl : List String) (d : List (String × List String))
    (row : List String) : Except ScrapeErr (List (String × List String)) := do
  let aligned ← alignRow hl.length row
  if aligned = [""] then return d
  else if aligned.length ≠ hl.length then .error .assertionFailed
  else appendRow d (pyDictZip hl aligned)

/-- Embeds `_get_table_from_page`, as a function of the header-cell texts
(whitespace is removed from each, `item.text.replace(' ', '')`) and the
body-row cell texts. -/
def tableFromPage (headers : List String) (rows : List (List String)) :
    Except ScrapeErr (List (String × List String)) :=
  let hl := headers.map stripSpaces
  rows.foldlM (processRow hl) (pyDictInit hl)

/-! ### The loan-details parser (src/aidvantage.py lines 201-229)

`get_account_details` parses its table inline — it does **not** call
`_get_table_from_page` — zipping the (space-stripped) header names against
each row's cells and building one `LoanDetails` per row, keyed by the
`Loan` column.  It is embedded as a function of the header and row texts
read from the `tblAllLoanDetails` table. -/

/-- Embeds `LoanDetails(**data_dict)`: attrs binds the keyword arguments
against the aliases `Loan`, `CurrentBalance`, `InterestRate`, `DueDate`
(an unexpected or missing keyword is a `TypeError`), then runs the
converters `balance_to_float` and `apr_to_float` in field order (a
malformed string is a conversion error). -/
def mkLoanDetails (d : List (String × String)) : Except ScrapeErr LoanDetails :=
  if d.all (fun p => p.1 ∈ ["Loan", "CurrentBalance", "InterestRate", "DueDate"]) then
    match pyLookup d "Loan", pyLookup d "CurrentBalance",
        pyLookup d "InterestRate", pyLookup d "DueDate" with
    | some nm, some bs, some rs, some ds =>
      match balance_to_float bs with
      | none => .error .typeError
      | some b =>
        match apr_to_float rs with
        | none => .error .typeError
        | some a => .ok ⟨nm, b, a, ds⟩
    | _, _, _, _ => .error .typeError
  else .error .typeError

/-- The body-row loop of `get_account_details`:
`loans[data_dict['Loan']] = LoanDetails(**data_dict)` (record first, then
the key lookup, matching Python's evaluation order). -/
def gadStep (hl : List String) (loans : List (String × LoanDetails))
    (row : List String) : Except ScrapeErr (List (String × LoanDetails)) := do
  let dd := pyDictZip hl row
  let r ← mkLoanDetails dd
  match pyLookup dd "Loan" with
  | some nm => .ok (pyDictInsert loans nm r)
  | none => .error .keyError

/-- Embeds the table-parsing portion of `get_account_details` (lines
212-229), as a function of the header-cell texts and body-row cell texts of
the `tblAllLoanDetails` table. -/
def get_account_details (headers : List String) (rows : List (List String)) :
    Except ScrapeErr (List (String × LoanDetails)) :=
  rows.foldlM (gadStep (headers.map stripSpaces)) []

/-! ### The browser as an abstract transition system

Each Selenium primitive the controller invokes becomes a field; a state
`S` is the driver's full situation (current page plus any server-side
session state).  `Option S` results model `NoSuchElementException` on the
element lookup; the `has…` probes model lookups whose failure the code
suppresses or tests. -/

/-- The Selenium driver and website, abstractly. -/
structure World (S : Type) where
  /-- Visible body text of the current page. -/
  text : S → String
  /-- `find_element(By.PARTIAL_LINK_TEXT, l).click()`. -/
  clickPartialLink : S → String → Option S
  /-- `find_element(By.ID, i).click()`. -/
  clickId : S → String → Option S
  /-- `find_element(By.ID, i).send_keys(v)`. -/
  sendKeysId : S → String → String → Option S
  /-- Does `find_element(By.LINK_TEXT, l)` succeed? -/
  hasLinkText : S → String → Bool
  /-- Is `find_elements(By.ID, i)` nonempty? -/
  hasIdList : S → String → Bool
  /-- Does `find_element(By.ID, i)` succeed? -/
  hasId : S → String → Bool
  /-- Does `wait.until(visibility_of_element_located((By.ID, i)))` succeed
  within the bounded timeout? -/
  waitVisibleId : S → String → Bool
  /-- `Select(elem).select_by_visible_text(v)` on the element with id `i`. -/
  selectByText : S → String → String → Option S
  /-- `find_element(By.ID, i).find_element(By.PARTIAL_LINK_TEXT, l).click()`. -/
  clickInIdPartialLink : S → String → String → Option S
  /-- Header-cell texts and body-row cell texts of the table with id `i`. -/
  tableById : S → String → Option (List String × List (List String))

/-- Embeds `UserLogin`. -/
structure UserLogin where
  username : String
  password : String
  ssn : String
  dob : String

variable {S : Type}

/-- Embeds the static `CurrentPage.go_to_page`: no-op when the classifier
already reports the target; else raise `ValueError` when the target has no
`link_text`; else click the partial-link-text link. -/
def goToPageStatic (W : World S) (s : S) (page : CurrentPage) : Except ScrapeErr S :=
  if classify (W.text s) = page then .ok s
  else
    match linkText page with
    | none => .error .valueErrorNoLink
    | some lt => optE (W.clickPartialLink s lt) .noSuchElement

/-- Embeds the `while` loop of `_do_filler_steps`: while the classifier
reports `GOV_DISCLAIMER`, click the `Accept` button
(`_accept_gov_comp_access`).  `fuel` bounds the loop; exhausting it stands
for nontermination. -/
def fillerSteps (W : World S) : Nat → S → Except ScrapeErr S
  | 0, s =>
    if classify (W.text s) = .GOV_DISCLAIMER then .error .fuelExhausted else .ok s
  | fuel + 1, s =>
    if classify (W.text s) = .GOV_DISCLAIMER then
      match W.clickId s "Accept" with
      | none => .error .noSuchElement
      | some s1 => fillerSteps W fuel s1
    else .ok s

/-- Embeds the instance method `Aidvantage.go_to_page`: the static
navigation followed by filler-step absorption. -/
def goToPage (W : World S) (fuel : Nat) (s : S) (page : CurrentPage) :
    Except ScrapeErr S := do
  let s1 ← goToPageStatic W s page
  fillerSteps W fuel s1

/-- Embeds `_is_logged_in`, returning the answer together with the state
(which filler-step absorption may advance).  The rule order is the
source's: the three logged-out identities, the four logged-in identities,
the filler identities, then the DOM heuristics, and finally
`ValueError("Unknown login state.")`. -/
def isLoggedIn (W : World S) (fuel : Nat) (s : S) : Except ScrapeErr (Bool × S) :=
  let p := classify (W.text s)
  if p ∈ [CurrentPage.EXPIRED, .LOGIN_PAGE, .HOME_PAGE] then .ok (false, s)
  else if p ∈ [CurrentPage.ACCOUNT_HISTORY, .ACCOUNT_SUMMARY, .ADDITIONAL_INFO,
      .LOAN_DETAILS] then .ok (true, s)
  else if p ∈ [CurrentPage.GOV_DISCLAIMER, .ADDITIONAL_INFO] then do
    let s1 ← fillerSteps W fuel s
    .ok (true, s1)
  else if W.hasLinkText s "Log in" then .ok (false, s)
  else if W.hasLinkText s "Account Summary" then .ok (true, s)
  else if W.hasIdList s "user-id" then .ok (false, s)
  else if W.hasIdList s "account-number" then .ok (false, s)
  else .error .valueErrorState

/-- Embeds `_require_login`: return when already logged in; else navigate
to the login page, type the username and password, click `Submit`; when the
classifier then reports `ADDITIONAL_INFO`, type the SSN and date of birth
and click `Submit` again; finally re-check, raising `RuntimeError` when
still not logged in. -/
def requireLogin (W : World S) (creds : UserLogin) (fuel : Nat) (s : S) :
    Except ScrapeErr S := do
  let (b, s0) ← isLoggedIn W fuel s
  if b then return s0
  else
    let s1 ← goToPage W fuel s0 .LOGIN_PAGE
    let s2 ← optE (W.sendKeysId s1 "user-id" creds.username) .noSuchElement
    let s3 ← optE (W.sendKeysId s2 "password" creds.password) .noSuchElement
    let s4 ← optE (W.clickId s3 "Submit") .noSuchElement
    let s5 ←
      if classify (W.text s4) = .ADDITIONAL_INFO then do
        let a1 ← optE (W.sendKeysId s4 "lblSSN1" creds.ssn) .noSuchElement
        let a2 ← optE (W.sendKeysId a1 "dob1" creds.dob) .noSuchElement
        optE (W.clickId a2 "Submit") .noSuchElement
      else pure s4
    let (b2, s6) ← isLoggedIn W fuel s5
    if b2 then return s6 else .error .runtimeError

/-- One dropdown step of `get_transactions`: `find_element(By.ID, …)`,
`wait.until(visibility…)` (bounded timeout), then
`Select(elem).select_by_visible_text(…)`. -/
def selectStep (W : World S) (s : S) (elemId visibleText : String) :
    Except ScrapeErr S :=
  if W.hasId s elemId then
    if W.waitVisibleId s elemId then optE (W.selectByText s elemId visibleText) .noSuchElement
    else .error .timeoutErr
  else .error .noSuchElement

/-- Embeds `get_transactions`: when the classifier does not already report
`ACCOUNT_HISTORY`, require login, navigate to `ACCOUNT_SUMMARY`, and click
the `Account History` link inside the `divRecentPayments` region; then set
the three dropdowns and parse the `tblByLoans` table. -/
def getTransactions (W : World S) (creds : UserLogin) (fuel : Nat) (s : S)
    (loan : String) : Except ScrapeErr (S × List (String × List String)) := do
  let sNav ←
    if classify (W.text s) = .ACCOUNT_HISTORY then pure s
    else do
      let s1 ← requireLogin W creds fuel s
      let s2 ← goToPage W fuel s1 .ACCOUNT_SUMMARY
      optE (W.clickInIdPartialLink s2 "divRecentPayments" "Account History") .noSuchElement
  let t1 ← selectStep W sNav "SelctedHistType" "By Loan"
  let t2 ← selectStep W t1 "ddl_Loan" loan
  let t3 ← selectStep W t2 "SelectedDateRange" "Life of Loan"
  match W.tableById t3 "tblByLoans" with
  | none => .error .noSuchElement
  | some (hs, rs) => do
    let tbl ← tableFromPage hs rs
    return (t3, tbl)

/-! ### Concrete trace worlds

Test fixtures: the state is the list of driver actions performed so far,
so a run's result displays exactly which clicks, key presses and
selections happened and in which order.  Page text is a function of the
trace; each fixture uses the real `matching_text` strings of the site's
pages. -/

/-- A world whose states are action traces: every primitive appends a
token recording itself, page text is `textOf` the trace, and the two
boolean element probes fail (the pages carry no stray elements). -/
def traceWorld (textOf : List String → String) : World (List String) where
  text := textOf
  clickPartialLink := fun s l => some (s ++ ["link:" ++ l])
  clickId := fun s i => some (s ++ ["click:" ++ i])
  sendKeysId := fun s i _ => some (s ++ ["keys:" ++ i])
  hasLinkText := fun _ _ => false
  hasIdList := fun _ _ => false
  hasId := fun _ _ => true
  waitVisibleId := fun _ _ => true
  selectByText := fun s i v => some (s ++ ["select:" ++ i ++ ":" ++ v])
  clickInIdPartialLink := fun s i l => some (s ++ ["clickin:" ++ i ++ ":" ++ l])
  tableById := fun _ _ => some (["Date"], [["x"]])

/-- Fixture credentials. -/
def testCreds : UserLogin := ⟨"user", "pass", "123-45-6789", "01/01/1990"⟩

/-- World for claim C5: the session starts on the government-disclaimer
interstitial, which happens to carry a `Log in` link; clicking it reaches
the login page. -/
def W5 : World (List String) :=
  traceWorld (fun s =>
    match s with
    | [] => matchingText .GOV_DISCLAIMER
    | _ => matchingText .LOGIN_PAGE)

/-- World for claim C6: the session starts on the login page; submitting
the credentials lands on the account summary. -/
def W6 : World (List String) :=
  traceWorld (fun s =>
    match s.getLast? with
    | none => matchingText .LOGIN_PAGE
    | some a =>
      if a = "click:Submit" then matchingText .ACCOUNT_SUMMARY
      else matchingText .LOGIN_PAGE)

/-- World for claim C8: the session sits on the home page and the `Log in`
link exists but navigates somewhere that never classifies as the login
page (the site changed, or the link is stale). -/
def W8 : World (List String) :=
  traceWorld (fun _ => matchingText .HOME_PAGE)

/-- Page text of the world for claim C9: the session starts on the login
page; submitting the credentials lands directly on the account-history
page; the `Account Summary` link leads to the account summary; every
later action shows the account-history page. -/
def W9text (s : List String) : String :=
  match s.getLast? with
  | none => matchingText .LOGIN_PAGE
  | some a =>
    if a = "click:Submit" then matchingText .ACCOUNT_HISTORY
    else if a = "link:Account Summary" then matchingText .ACCOUNT_SUMMARY
    else if a = "keys:user-id" ∨ a = "keys:password" then matchingText .LOGIN_PAGE
    else matchingText .ACCOUNT_HISTORY

/-- World for claim C9 (login lands on the history page). -/
def W9 : World (List String) := traceWorld W9text

/-- Second world for claim C9: the session already sits on the
account-history page, and every login/navigation primitive is broken
(`NoSuchElementException`), so any attempt to log in or navigate would
fail; only the dropdown selections and the table read work. -/
def W9b : World (List String) where
  text := fun _ => matchingText .ACCOUNT_HISTORY
  clickPartialLink := fun _ _ => none
  clickId := fun _ _ => none
  sendKeysId := fun _ _ _ => none
  hasLinkText := fun _ _ => false
  hasIdList := fun _ _ => false
  hasId := fun _ _ => true
  waitVisibleId := fun _ _ => true
  selectByText := fun s i v => some (s ++ ["select:" ++ i ++ ":" ++ v])
  clickInIdPartialLink := fun _ _ _ => none
  tableById := fun _ _ => some (["Date"], [["x"]])

/-- The logged-in page identities of `_is_logged_in`'s second rule. -/
def authenticatedPages : List CurrentPage :=
  [.ACCOUNT_HISTORY, .ACCOUNT_SUMMARY, .ADDITIONAL_INFO, .LOAN_DETAILS]

/-! ### Helper lemmas -/

/-- The classifier loop is first-match over the list. -/
theorem classifyFrom_eq_find (t : String) :
    ∀ l : List CurrentPage, classifyFrom t l = ((l.find? (matchesText t)).getD .UNKNOWN)
  | [] => rfl
  | p :: rest => by
    by_cases h : strContains t (matchingText p) <;>
      simp [classifyFrom, List.find?, matchesText, h, classifyFrom_eq_find t rest]

/-- Filler-step absorption is the identity away from the disclaimer. -/
theorem fillerSteps_not_gov {S : Type} (W : World S) (fuel : Nat) (s : S)
    (h : ¬ classify (W.text s) = CurrentPage.GOV_DISCLAIMER) :
    fillerSteps W fuel s = .ok s := by
  cases fuel <;> simp [fillerSteps, h]

/-- A completed filler-step loop never leaves the disclaimer showing. -/
theorem fillerSteps_ok_not_gov {S : Type} (W : World S) :
    ∀ (fuel : Nat) (s s1 : S), fillerSteps W fuel s = .ok s1 →
      ¬ classify (W.text s1) = CurrentPage.GOV_DISCLAIMER := by
  intro fuel
  induction fuel with
  | zero =>
    intro s s1 h
    by_cases hc : classify (W.text s) = CurrentPage.GOV_DISCLAIMER <;>
      simp [fillerSteps, hc] at h
    exact h ▸ hc
  | succ n ih =>
    intro s s1 h
    by_cases hc : classify (W.text s) = CurrentPage.GOV_DISCLAIMER
    · rw [fillerSteps, if_pos hc] at h
      cases hck : W.clickId s "Accept" with
      | none => rw [hck] at h; cases h
      | some s2 => rw [hck] at h; exact ih s2 s1 h
    · rw [fillerSteps, if_neg hc] at h
      cases h
      exact hc

/-- A successful `foldlM` ran its step successfully on every list element. -/
theorem foldlM_ok_imp {ε α β : Type} (f : β → α → Except ε β) :
    ∀ (l : List α) (d out : β), l.foldlM f d = .ok out →
      ∀ a ∈ l, ∃ d1 d2, f d1 a = .ok d2 := by
  intro l
  induction l with
  | nil => intro d out _ a ha; cases ha
  | cons x xs ih =>
    intro d out h a ha
    rw [List.foldlM_cons] at h
    cases hf : f d x with
    | error e => rw [hf] at h; simp [Bind.bind, Except.bind] at h
    | ok d1 =>
      rw [hf] at h
      simp only [Bind.bind, Except.bind] at h
      rcases List.mem_cons.mp ha with rfl | ha1
      · exact ⟨d, d1, hf⟩
      · exact ih d1 out h a ha1

/-- A successfully processed body row was aligned, and was either the
`['']` spacer or came out at exactly the header count. -/
theorem processRow_ok_shape (hl : List String) (d d1 : List (String × List String))
    (row : List String) (h : processRow hl d row = .ok d1) :
    ∃ a, alignRow hl.length row = .ok a ∧ (a = [""] ∨ a.length = hl.length) := by
  unfold processRow at h
  cases ha : alignRow hl.length row with
  | error e => rw [ha] at h; simp [Bind.bind, Except.bind] at h
  | ok a =>
    rw [ha] at h
    simp only [Bind.bind, Except.bind] at h
    refine ⟨a, rfl, ?_⟩
    by_cases h1 : a = [""]
    · exact Or.inl h1
    · by_cases h2 : a.length = hl.length
      · exact Or.inr h2
      · simp [h1, h2] at h

/-- Membership after a Python dict insertion. -/
theorem pyDictInsert_mem {v : Type} :
    ∀ (d : List (String × v)) (k : String) (x : v) (p : String × v),
      p ∈ pyDictInsert d k x → p = (k, x) ∨ p ∈ d := by
  intro d
  induction d with
  | nil =>
    intro k x p hp
    simp [pyDictInsert] at hp
    exact Or.inl hp
  | cons q rest ih =>
    intro k x p hp
    rcases q with ⟨k0, x0⟩
    by_cases hk : k0 = k
    · rw [pyDictInsert, if_pos hk] at hp
      rcases List.mem_cons.mp hp with rfl | hp1
      · exact Or.inl (by rw [hk])
      · exact Or.inr (List.mem_cons_of_mem _ hp1)
    · rw [pyDictInsert, if_neg hk] at hp
      rcases List.mem_cons.mp hp with rfl | hp1
      · exact Or.inr (List.mem_cons_self _ _)
      · rcases ih k x p hp1 with h1 | h1
        · exact Or.inl h1
        · exact Or.inr (List.mem_cons_of_mem _ h1)

/-- A constructed loan record's `name` is the row's `Loan` cell. -/
theorem mkLoanDetails_name (d : List (String × String)) (r : LoanDetails)
    (h : mkLoanDetails d = .ok r) : pyLookup d "Loan" = some r.name := by
  unfold mkLoanDetails at h
  split at h <;> try cases h
  split at h <;> try cases h
  split at h <;> try cases h
  split at h <;> try cases h
  simp_all

/-- Inversion of one `get_account_details` row step. -/
theorem gadStep_ok_inv (hl : List String) (acc acc1 : List (String × LoanDetails))
    (row : List String) (h : gadStep hl acc row = .ok acc1) :
    ∃ r nm, mkLoanDetails (pyDictZip hl row) = .ok r ∧
      pyLookup (pyDictZip hl row) "Loan" = some nm ∧
      acc1 = pyDictInsert acc nm r := by
  simp only [gadStep, Bind.bind, Except.bind] at h
  cases hm : mkLoanDetails (pyDictZip hl row) with
  | error e => rw [hm] at h; cases h
  | ok r =>
    rw [hm] at h
    cases hl2 : pyLookup (pyDictZip hl row) "Loan" with
    | none => rw [hl2] at h; cases h
    | some nm =>
      rw [hl2] at h
      cases h
      exact ⟨r, nm, rfl, rfl, rfl⟩

/-- Every entry produced by the `get_account_details` row loop is keyed by
its record's name. -/
theorem gad_fold_name (hl : List String) :
    ∀ (rows : List (List String)) (acc out : List (String × LoanDetails)),
      (∀ p ∈ acc, (Prod.snd p).name = p.1) →
      rows.foldlM (gadStep hl) acc = .ok out →
      ∀ p ∈ out, (Prod.snd p).name = p.1 := by
  intro rows
  induction rows with
  | nil =>
    intro acc out hacc h
    simp only [List.foldlM_nil, pure, Except.pure] at h
    cases h
    exact hacc
  | cons row rest ih =>
    intro acc out hacc h
    rw [List.foldlM_cons] at h
    cases hg : gadStep hl acc row with
    | error e => rw [hg] at h; simp [Bind.bind, Except.bind] at h
    | ok acc1 =>
      rw [hg] at h
      simp only [Bind.bind, Except.bind] at h
      refine ih acc1 out ?_ h
      rcases gadStep_ok_inv hl acc acc1 row hg with ⟨r, nm, hmk, hlk, rfl⟩
      intro p hp
      rcases pyDictInsert_mem acc nm r p hp with rfl | hp1
      · have := mkLoanDetails_name _ _ hmk
        rw [hlk] at this
        cases this
        rfl
      · exact hacc p hp1

/-- Front-trimming is the identity on rows not longer than the header. -/
theorem specTrimFront_of_le (hlen : Nat) (row : List String)
    (h : row.length ≤ hlen) : specTrimFront hlen row = row := by
  cases row with
  | nil => rfl
  | cons c rest =>
    have hcond : ¬ (c = "" ∧ hlen < (c :: rest).length) := by
      rintro ⟨-, hlt⟩
      omega
    simp only [specTrimFront, if_neg hcond]

/-- Back-trimming is the identity on rows not longer than the header. -/
theorem specTrimBack_of_le (hlen : Nat) (row : List String)
    (h : row.length ≤ hlen) : specTrimBack hlen row = row := by
  unfold specTrimBack
  rw [specTrimFront_of_le hlen row.reverse (by simpa using h), List.reverse_reverse]

/-- Front-trimming does not touch a row whose first cell is non-empty. -/
theorem specTrimFront_cons_ne (hlen : Nat) (c : String) (rest : List String)
    (hc : ¬ c = "") : specTrimFront hlen (c :: rest) = c :: rest := by
  have hcond : ¬ (c = "" ∧ hlen < (c :: rest).length) := fun hp => hc hp.1
  simp only [specTrimFront, if_neg hcond]

/-- Back-trimming drops a trailing empty cell of a too-long row. -/
theorem specTrimBack_concat (hlen : Nat) (t : List String)
    (h : hlen < t.length + 1) :
    specTrimBack hlen (t ++ [""]) = specTrimBack hlen t := by
  unfold specTrimBack
  have hrev : (t ++ [""]).reverse = "" :: t.reverse := by simp
  rw [hrev]
  simp only [specTrimFront]
  rw [if_pos]
  refine ⟨by trivial, ?_⟩
  simpa using h

/-- Back-trimming does not touch a row whose last cell is non-empty. -/
theorem specTrimBack_of_getLast_ne (hlen : Nat) (row : List String)
    (h : ¬ row.getLast? = some "") : specTrimBack hlen row = row := by
  unfold specTrimBack
  cases hrev : row.reverse with
  | nil =>
    have hnil : row = [] := by
      have h2 := congrArg List.reverse hrev
      simpa using h2
    rw [hnil]
    rfl
  | cons d t =>
    have hd : row.getLast? = some d := by
      rw [← List.head?_reverse, hrev]
      rfl
    have hdne : ¬ d = "" := by
      intro he
      exact h (by rw [hd, he])
    rw [specTrimFront_cons_ne hlen d t hdne, ← hrev, List.reverse_reverse]

/-- The interleaved alignment loop of the source equals the spec-side
two-phase trimmer, given fuel at least the row length. -/
theorem alignRowAux_eq_specAlign (hlen : Nat) :
    ∀ (fuel : Nat) (row : List String), row.length ≤ fuel →
      alignRowAux hlen fuel row = specAlign hlen row := by
  intro fuel
  induction fuel with
  | zero =>
    intro row hle
    have hnil : row = [] := List.length_eq_zero.mp (Nat.le_zero.mp hle)
    subst hnil
    simp [alignRowAux, specAlign, specTrimBack, specTrimFront]
  | succ f ih =>
    intro row hle
    by_cases hlt : hlen < row.length
    · rcases row with _ | ⟨c, rest⟩
      · simp at hlt
      · by_cases hc : c = ""
        · subst hc
          have hrest : rest.length ≤ f := by
            simp only [List.length_cons] at hle
            omega
          have hstep : alignRowAux hlen (f + 1) ("" :: rest) = alignRowAux hlen f rest := by
            simp only [alignRowAux]
            rw [if_pos hlt]
            rfl
          rw [hstep, ih rest hrest]
          have hfront : specTrimFront hlen ("" :: rest) = specTrimFront hlen rest := by
            simp only [specTrimFront]
            rw [if_pos]
            exact ⟨by trivial, hlt⟩
          simp only [specAlign, hfront]
        · have hne_head : ¬ (c :: rest).head? = some "" := by simp [hc]
          by_cases hlast : (c :: rest).getLast? = some ""
          · have hstep : alignRowAux hlen (f + 1) (c :: rest)
                = alignRowAux hlen f ((c :: rest).dropLast) := by
              simp only [alignRowAux, if_pos hlt, if_neg hne_head, if_pos hlast]
            have hdl_le : ((c :: rest).dropLast).length ≤ f := by
              have h1 : ((c :: rest).dropLast).length = rest.length := by simp
              have h2 : rest.length + 1 ≤ f + 1 := by simpa using hle
              omega
            rw [hstep, ih _ hdl_le]
            rcases List.getLast?_eq_some_iff.mp hlast with ⟨t, ht⟩
            have hdl : (c :: rest).dropLast = t := by rw [ht, List.dropLast_concat]
            rw [hdl, ht]
            rw [ht] at hlt
            rcases t with _ | ⟨c2, t2⟩
            · rw [List.nil_append] at ht
              injection ht with h1 h2
              exact absurd h1 hc
            · have hc2 : c2 = c := by
                rw [List.cons_append] at ht
                injection ht with h1 h2
                exact h1.symm
              have hc2ne : ¬ c2 = "" := by rw [hc2]; exact hc
              have hlt2 : hlen < (c2 :: t2).length + 1 := by
                have h1 : ((c2 :: t2) ++ [""]).length = (c2 :: t2).length + 1 := by
                  simp
                rw [h1] at hlt
                exact hlt
              simp only [specAlign]
              rw [List.cons_append]
              rw [specTrimFront_cons_ne hlen c2 t2 hc2ne,
                specTrimFront_cons_ne hlen c2 (t2 ++ [""]) hc2ne]
              rw [← List.cons_append]
              rw [specTrimBack_concat hlen (c2 :: t2) hlt2]
          · have hstep : alignRowAux hlen (f + 1) (c :: rest)
                = .error .valueErrorColumns := by
              simp only [alignRowAux, if_pos hlt, if_neg hne_head, if_neg hlast]
            rw [hstep]
            simp only [specAlign]
            rw [specTrimFront_cons_ne hlen c rest hc,
              specTrimBack_of_getLast_ne hlen _ hlast, if_pos hlt]
    · have hle2 : row.length ≤ hlen := Nat.le_of_not_lt hlt
      simp only [alignRowAux, if_neg hlt]
      simp only [specAlign, specTrimFront_of_le hlen row hle2,
        specTrimBack_of_le hlen row hle2, if_neg hlt]

/-! ### Claim C1 — malformed rows in `get_account_details` -/

/-- Claim C1, counterexample.  The claim says every body row whose cell
count differs from the header count fails with a parsing error and is
never silently truncated.  In fact `get_account_details` performs no
alignment or count check at all: on a five-cell row against the four-column
header, `dict(zip(...))` silently drops the fifth cell and a record is
built — the call succeeds. -/
theorem claim1_counterexample :
    get_account_details ["Loan", "Current Balance", "Interest Rate", "Due Date"]
      [["L1", "$100.00", "25.00%", "01/01/2025", "EXTRA"]] =
    .ok [("L1", ⟨"L1", mkRat 100 1, mkRat 1 4, "01/01/2025"⟩)] := by decide

/-- Claim C1, amended.  `get_account_details` has no alignment pass and no
cell-count check: a row longer than the header is silently truncated by
`zip` into a record, while a row shorter than the header fails only
indirectly, through record construction (a missing field is a
`TypeError`), not through any cell-count comparison. -/
theorem claim1_theorem :
    (get_account_details ["Loan", "Current Balance", "Interest Rate", "Due Date"]
        [["L1", "$100.00", "25.00%", "01/01/2025", "EXTRA"]] =
      .ok [("L1", ⟨"L1", mkRat 100 1, mkRat 1 4, "01/01/2025"⟩)]) ∧
    (∀ row : List String, row.length < 4 →
      get_account_details ["Loan", "Current Balance", "Interest Rate", "Due Date"]
        [row] = .error .typeError) := by
  constructor
  · decide
  · intro row hlen
    have hhl : (["Loan", "Current Balance", "Interest Rate", "Due Date"].map stripSpaces)
        = ["Loan", "CurrentBalance", "InterestRate", "DueDate"] := by decide
    rcases row with _ | ⟨a, _ | ⟨b, _ | ⟨c, _ | ⟨d, rest⟩⟩⟩⟩
    · decide
    · unfold get_account_details
      rw [hhl]
      simp [gadStep, pyDictZip, pyDictInsert, mkLoanDetails, pyLookup,
        List.foldlM, List.zip, List.zipWith, Bind.bind, Except.bind]
    · unfold get_account_details
      rw [hhl]
      simp [gadStep, pyDictZip, pyDictInsert, mkLoanDetails, pyLookup,
        List.foldlM, List.zip, List.zipWith, Bind.bind, Except.bind]
    · unfold get_account_details
      rw [hhl]
      simp [gadStep, pyDictZip, pyDictInsert, mkLoanDetails, pyLookup,
        List.foldlM, List.zip, List.zipWith, Bind.bind, Except.bind]
    · simp at hlen
      omega

/-- Claim C1, witness for the amended theorem at the one-cell row. -/
theorem claim1_witness :
    get_account_details ["Loan", "Current Balance", "Interest Rate", "Due Date"]
      [["a"]] = .error .typeError :=
  claim1_theorem.2 ["a"] (by decide)

/-! ### Claim C2 — rate conversion is not exact -/

/-- Claim C2 (code bug).  The claim (and the spec) say `apr_to_float`
yields the exact stripped-and-divided decimal, so `apr_to_float("5.50%")`
is exactly `0.055`.  The code routes the value through a binary `float`
(`Decimal(float(apr.rstrip("%")) / 100)`), so it actually yields the
binary64 rounding `7926335344172073 / 2^57 =
0.0550000000000000002775…`, which differs from `11/200 = 0.055`.  The sibling
`balance_to_float` converts exactly via the string, and the function's
declared purpose is an exact `Decimal`; the float round-trip is the slip. -/
theorem claim2_theorem :
    apr_to_float "5.50%" = some (mkRat 7926335344172073 (2 ^ 57)) ∧
    apr_to_float "5.50%" ≠ some (mkRat 11 200) := by decide

/-! ### Claim C3 — alignment failures in `_get_table_from_page` -/

/-- Claim C3, counterexample.  The claim says every row that cannot be
brought to exactly the header count fails with `RowAlignmentError`.  But a
row equal to `['']` (cell count 1 against header count 2, with no trimming
possible since the row is not longer than the header) is silently skipped:
extraction succeeds with empty columns. -/
theorem claim3_counterexample :
    tableFromPage ["A", "B"] [[""]] = .ok [("A", []), ("B", [])] := by decide

/-- Claim C3, amended.  A body row longer than the header whose ends are
both non-empty fails the alignment loop (`ValueError`, the spec's
`RowAlignmentError`); a row whose aligned form is not the `['']` spacer
and does not match the header count fails the final check (the `assert`);
and conversely a successful extraction means every row aligned to the
`['']` spacer (skipped) or to exactly the header count. -/
theorem claim3_theorem :
    (tableFromPage ["A", "B"] [["x", "y", "z"]] = .error .valueErrorColumns) ∧
    (tableFromPage ["A", "B", "C"] [["x"]] = .error .assertionFailed) ∧
    (∀ (headers : List String) (rows : List (List String)) out,
      tableFromPage headers rows = .ok out →
      ∀ row ∈ rows, ∃ a, alignRow headers.length row = .ok a ∧
        (a = [""] ∨ a.length = headers.length)) := by
  refine ⟨by decide, by decide, ?_⟩
  intro headers rows out h row hrow
  unfold tableFromPage at h
  rcases foldlM_ok_imp _ rows _ _ h row hrow with ⟨d1, d2, hstep⟩
  have := processRow_ok_shape (headers.map stripSpaces) d1 d2 row hstep
  simpa [List.length_map] using this

/-- Claim C3, witness for the amended theorem on a well-formed row. -/
theorem claim3_witness :
    ∃ a, alignRow 1 ["x"] = .ok a ∧ (a = [""] ∨ a.length = 1) := by
  have h := claim3_theorem.2.2 ["A"] [["x"]] [("A", ["x"])] (by decide) ["x"] (by simp)
  simpa using h

/-! ### Claim C4 — the page classifier -/

/-- Claim C4 (confirmed).  `get_current_page` returns the first identity in
the enum's fixed declaration order whose `matching_text` occurs anywhere in
the body text, and `UNKNOWN` when none occurs; the embedding is a total
function (the loop's `assert isinstance(...)` always holds), so it never
raises. -/
theorem claim4_theorem :
    ∀ t : String,
      classify t = ((pageOrder.find? (matchesText t)).getD .UNKNOWN) ∧
      ((∀ p ∈ pageOrder, matchesText t p = false) → classify t = .UNKNOWN) := by
  intro t
  refine ⟨classifyFrom_eq_find t pageOrder, ?_⟩
  intro hall
  have hnone : pageOrder.find? (matchesText t) = none := by
    rw [List.find?_eq_none]
    intro p hp
    simp [hall p hp]
  rw [classify, classifyFrom_eq_find t pageOrder, hnone]
  rfl

/-- Claim C4, witness: a text matching no identity classifies as
`UNKNOWN`. -/
theorem claim4_witness : classify "zzz" = CurrentPage.UNKNOWN := by
  have h := claim4_theorem "zzz"
  exact h.2 (by decide)

/-! ### Claim C7 — alignment drops empty boundary cells, front first -/

/-- Claim C7 (confirmed).  For every header length and every body row, the
source's interleaved alignment loop `alignRow` equals the spec-side
trimmer `specAlign`, which drops leading empty-string cells first and then
trailing ones, while the row is longer than the header — the universal
front-first-then-back dropping policy.  In particular the spec's example
`["", "x", "y"]` against header `["A", "B"]` yields `{A: ["x"], B: ["y"]}`,
and the row `["", "a", ""]` pins the front-first order: the leading empty
cell is dropped and the trailing one survives as column `B`'s value. -/
theorem claim7_theorem :
    (∀ (hlen : Nat) (row : List String), alignRow hlen row = specAlign hlen row) ∧
    (tableFromPage ["A", "B"] [["", "x", "y"]] = .ok [("A", ["x"]), ("B", ["y"])]) ∧
    (tableFromPage ["A", "B"] [["x", "y", ""]] = .ok [("A", ["x"]), ("B", ["y"])]) ∧
    (tableFromPage ["A", "B"] [["", "x", "y", ""]] = .ok [("A", ["x"]), ("B", ["y"])]) ∧
    (tableFromPage ["A", "B"] [["", "a", ""]] = .ok [("A", ["a"]), ("B", [""])]) := by
  refine ⟨?_, by decide, by decide, by decide, by decide⟩
  intro hlen row
  exact alignRowAux_eq_specAlign hlen row.length row (Nat.le_refl _)

/-! ### Claim C10 — keys equal record names; duplicates overwrite -/

/-- Claim C10 (confirmed).  Every key of the mapping returned by
`get_account_details` equals the `name` of the record it maps to, and when
two rows carry the same `Loan` value only the record built from the later
row survives (here the `$200.00` row replaces the `$100.00` row). -/
theorem claim10_theorem :
    (∀ (headers : List String) (rows : List (List String)) out,
      get_account_details headers rows = .ok out →
      ∀ p ∈ out, (Prod.snd p).name = p.1) ∧
    (get_account_details ["Loan", "CurrentBalance", "InterestRate", "DueDate"]
        [["L1", "$100.00", "25.00%", "01/01/2025"],
         ["L1", "$200.00", "25.00%", "02/02/2025"]] =
      .ok [("L1", ⟨"L1", mkRat 200 1, mkRat 1 4, "02/02/2025"⟩)]) := by
  constructor
  · intro headers rows out h p hp
    exact gad_fold_name (headers.map stripSpaces) rows [] out (by intro q hq; cases hq) h p hp
  · decide

/-- Claim C10, witness: the key/name equality at a concrete extraction. -/
theorem claim10_witness :
    (LoanDetails.mk "L1" (mkRat 200 1) (mkRat 1 4) "02/02/2025").name = "L1" :=
  claim10_theorem.1 ["Loan", "CurrentBalance", "InterestRate", "DueDate"]
    [["L1", "$100.00", "25.00%", "01/01/2025"],
     ["L1", "$200.00", "25.00%", "02/02/2025"]]
    [("L1", ⟨"L1", mkRat 200 1, mkRat 1 4, "02/02/2025"⟩)]
    (by decide) ("L1", ⟨"L1", mkRat 200 1, mkRat 1 4, "02/02/2025"⟩) (by simp)

/-! ### Claim C5 — filler-step absorption around navigation -/

/-- Claim C5, counterexample.  The claim says absorption runs before and
after every navigation, so the disclaimer is never current when a
navigation acts.  In `W5` the session sits on the government disclaimer;
`go_to_page(LOGIN_PAGE)` immediately clicks the `Log in` link from the
disclaimer — the resulting trace is exactly `["link:Log in"]`, with no
`click:Accept` before the navigation click, even though the starting page
classifies as `GOV_DISCLAIMER`. -/
theorem claim5_counterexample :
    goToPage W5 2 [] CurrentPage.LOGIN_PAGE = .ok ["link:Log in"] ∧
    classify (W5.text []) = CurrentPage.GOV_DISCLAIMER := by decide

/-- Claim C5, amended.  Filler-step absorption is applied only *after*
navigation: whenever `go_to_page` returns normally, the final state never
classifies as `GOV_DISCLAIMER` — but nothing absorbs a disclaimer that is
current *before* the navigation click. -/
theorem claim5_theorem :
    ∀ (S : Type) (W : World S) (fuel : Nat) (s sF : S) (page : CurrentPage),
      goToPage W fuel s page = .ok sF →
      ¬ classify (W.text sF) = CurrentPage.GOV_DISCLAIMER := by
  intro S W fuel s sF page h
  unfold goToPage at h
  cases hs : goToPageStatic W s page with
  | error e => rw [hs] at h; simp [Bind.bind, Except.bind] at h
  | ok s1 =>
    rw [hs] at h
    simp only [Bind.bind, Except.bind] at h
    exact fillerSteps_ok_not_gov W fuel s1 sF h

/-- Claim C5, witness for the amended theorem on a concrete run. -/
theorem claim5_witness :
    ¬ classify (W5.text ["link:Log in"]) = CurrentPage.GOV_DISCLAIMER :=
  claim5_theorem (List String) W5 2 [] ["link:Log in"] CurrentPage.LOGIN_PAGE (by decide)

/-! ### Claim C6 — login from the login page -/

/-- Claim C6 (confirmed).  Starting from a state the classifier reports as
`LOGIN_PAGE`, `_require_login` types the username and password and clicks
`Submit` exactly once.  With valid credentials — the submission lands on a
page classifying as one of the authenticated identities — it returns that
state, where `classify` reports an authenticated identity.  With invalid
credentials — the submission leaves the classifier on `LOGIN_PAGE` — it
raises `RuntimeError` (the spec's `LoginFailed`) immediately, with no
retry. -/
theorem claim6_theorem :
    (∀ (S : Type) (W : World S) (creds : UserLogin) (fuel : Nat) (s s1 s2 s3 : S),
      classify (W.text s) = CurrentPage.LOGIN_PAGE →
      W.sendKeysId s "user-id" creds.username = some s1 →
      W.sendKeysId s1 "password" creds.password = some s2 →
      W.clickId s2 "Submit" = some s3 →
      classify (W.text s3) ∈ [CurrentPage.ACCOUNT_SUMMARY, CurrentPage.ACCOUNT_HISTORY,
        CurrentPage.LOAN_DETAILS] →
      requireLogin W creds fuel s = .ok s3 ∧
        classify (W.text s3) ∈ authenticatedPages) ∧
    (∀ (S : Type) (W : World S) (creds : UserLogin) (fuel : Nat) (s s1 s2 s3 : S),
      classify (W.text s) = CurrentPage.LOGIN_PAGE →
      W.sendKeysId s "user-id" creds.username = some s1 →
      W.sendKeysId s1 "password" creds.password = some s2 →
      W.clickId s2 "Submit" = some s3 →
      classify (W.text s3) = CurrentPage.LOGIN_PAGE →
      requireLogin W creds fuel s = .error .runtimeError) := by
  constructor
  · intro S W creds fuel s s1 s2 s3 hL h1 h2 h3 h4
    simp only [List.mem_cons, List.not_mem_nil, or_false] at h4
    rcases h4 with hc | hc | hc <;>
      simp [requireLogin, isLoggedIn, goToPage, goToPageStatic, hL, hc,
        fillerSteps_not_gov, h1, h2, h3, optE, Bind.bind, Except.bind,
        pure, Except.pure, authenticatedPages]
  · intro S W creds fuel s s1 s2 s3 hL h1 h2 h3 hc
    simp [requireLogin, isLoggedIn, goToPage, goToPageStatic, hL, hc,
      fillerSteps_not_gov, h1, h2, h3, optE, Bind.bind, Except.bind,
      pure, Except.pure]

/-- Claim C6, witness: a concrete run in `W6` whose submission lands on the
account summary. -/
theorem claim6_witness :
    requireLogin W6 testCreds 1 [] = .ok ["keys:user-id", "keys:password", "click:Submit"] ∧
    classify (W6.text ["keys:user-id", "keys:password", "click:Submit"]) ∈ authenticatedPages :=
  claim6_theorem.1 (List String) W6 testCreds 1 []
    ["keys:user-id"] ["keys:user-id", "keys:password"]
    ["keys:user-id", "keys:password", "click:Submit"]
    (by decide) (by decide) (by decide) (by decide) (by decide)

/-! ### Claim C8 — idempotence of `go_to_page` -/

/-- Claim C8, counterexample.  The claim says two successive calls with the
same target navigate at most once.  In `W8` the home page's `Log in` link
never reaches a page classifying as the login page, so the second call
clicks again: the trace after two calls contains two navigation clicks. -/
theorem claim8_counterexample :
    goToPage W8 2 [] CurrentPage.LOGIN_PAGE = .ok ["link:Log in"] ∧
    goToPage W8 2 ["link:Log in"] CurrentPage.LOGIN_PAGE =
      .ok ["link:Log in", "link:Log in"] := by decide

/-- Claim C8, amended.  When the classifier already reports the target (and
the target is not the auto-absorbed `GOV_DISCLAIMER` interstitial),
`go_to_page` is a no-op — it returns the state unchanged, performing no
navigation.  Hence two successive calls navigate at most once exactly when
the first call lands on the target; when it does not, the second call
navigates again. -/
theorem claim8_theorem :
    ∀ (S : Type) (W : World S) (fuel : Nat) (s : S) (target : CurrentPage),
      classify (W.text s) = target → ¬ target = CurrentPage.GOV_DISCLAIMER →
      goToPage W fuel s target = .ok s := by
  intro S W fuel s target h hgov
  unfold goToPage goToPageStatic
  rw [if_pos h]
  simp only [Bind.bind, Except.bind]
  exact fillerSteps_not_gov W fuel s (by rw [h]; exact hgov)

/-- Claim C8, witness: on the home page, navigating to the home page is a
no-op. -/
theorem claim8_witness : goToPage W8 2 [] CurrentPage.HOME_PAGE = .ok [] :=
  claim8_theorem (List String) W8 2 [] CurrentPage.HOME_PAGE (by decide) (by decide)

/-! ### Claim C9 — ordering of login and navigation in `get_transactions` -/

/-- Claim C9, counterexample.  The claim says every call first ensures
login and only then, if the current page is not `ACCOUNT_HISTORY`,
navigates via `ACCOUNT_SUMMARY`.  In `W9` the code checks the page before
logging in: login itself lands on the account-history page (second
conjunct), yet the call still clicks the `Account Summary` link afterwards
— the trace contains `link:Account Summary` after `click:Submit`. -/
theorem claim9_counterexample :
    getTransactions W9 testCreds 4 [] "L1" =
      .ok (["keys:user-id", "keys:password", "click:Submit", "link:Account Summary",
            "clickin:divRecentPayments:Account History", "select:SelctedHistType:By Loan",
            "select:ddl_Loan:L1", "select:SelectedDateRange:Life of Loan"],
           [("Date", ["x"])]) ∧
    classify (W9.text ["keys:user-id", "keys:password", "click:Submit"]) =
      CurrentPage.ACCOUNT_HISTORY := by decide

/-- Claim C9, amended.  `get_transactions` tests the current page *first*:
when the classifier already reports `ACCOUNT_HISTORY` it proceeds straight
to the history-type/loan/date selections with no login check at all (in
`W9b` every login and navigation primitive is broken, yet the call
succeeds, performing only the three selections); otherwise a successful
call factors through `_require_login`, then navigation to
`ACCOUNT_SUMMARY`, then the `Account History` click — even when login
itself landed on the history page. -/
theorem claim9_theorem :
    (getTransactions W9b testCreds 4 [] "L1" =
      .ok (["select:SelctedHistType:By Loan", "select:ddl_Loan:L1",
            "select:SelectedDateRange:Life of Loan"],
           [("Date", ["x"])])) ∧
    (∀ (S : Type) (W : World S) (creds : UserLogin) (fuel : Nat) (s : S)
        (loan : String) (out : S × List (String × List String)),
      ¬ classify (W.text s) = CurrentPage.ACCOUNT_HISTORY →
      getTransactions W creds fuel s loan = .ok out →
      ∃ s1 s2 s3, requireLogin W creds fuel s = .ok s1 ∧
        goToPage W fuel s1 CurrentPage.ACCOUNT_SUMMARY = .ok s2 ∧
        W.clickInIdPartialLink s2 "divRecentPayments" "Account History" = some s3) := by
  constructor
  · decide
  · intro S W creds fuel s loan out hne h
    unfold getTransactions at h
    rw [if_neg hne] at h
    simp only [Bind.bind, Except.bind] at h
    split at h
    · cases h
    · rename_i s1 hr
      split at h
      · cases h
      · rename_i s2 hg
        split at h
        · cases h
        · rename_i s3 hc
          refine ⟨s1, s2, s3, hr, hg, ?_⟩
          unfold optE at hc
          cases hck : W.clickInIdPartialLink s2 "divRecentPayments" "Account History" <;>
            rw [hck] at hc
          · cases hc
          · cases hc
            rfl

/-- Claim C9, witness for the amended theorem on the `W9` run. -/
theorem claim9_witness :
    ∃ s1 s2 s3, requireLogin W9 testCreds 4 [] = .ok s1 ∧
      goToPage W9 4 s1 CurrentPage.ACCOUNT_SUMMARY = .ok s2 ∧
      W9.clickInIdPartialLink s2 "divRecentPayments" "Account History" = some s3 :=
  claim9_theorem.2 (List String) W9 testCreds 4 [] "L1"
    (["keys:user-id", "keys:password", "click:Submit", "link:Account Summary",
      "clickin:divRecentPayments:Account History", "select:SelctedHistType:By Loan",
      "select:ddl_Loan:L1", "select:SelectedDateRange:Life of Loan"],
     [("Date", ["x"])])
    (by decide) (by decide)

end AidvantageModel
